import Mathlib

/-!
Verification of the Order & Payment Consistency Engine of the BookStrore
repository.  The server-side operations are shallow embeddings of the
PL/pgSQL functions in `database/migrations/010_payment_service_enhancements.sql`
and `database/migrations/011_add_refresh_tokens.sql`; the tables are those of
`database/migrations/004_create_orders.sql` and
`database/migrations/005_create_payments.sql`.  The client-side payment
monitor is a shallow embedding of `frontend/js/payment.js`
(`PaymentManager.startPaymentMonitoring` / `startStatusPolling` and friends),
with JavaScript timers modelled as an explicit earliest-deadline task queue.
-/

namespace BookStore

/-- Row of the `orders` table (`004_create_orders.sql`), restricted to the
columns the payment engine reads or writes.  Timestamps are naturals
(seconds); `idempotency_key` is the nullable UNIQUE column. -/
structure Order where
  id : Nat
  order_number : String
  user_id : Nat
  book_id : Nat
  amount : Int
  status : String
  payment_method : String
  idempotency_key : Option String
  paid_at : Option Nat
  expires_at : Nat
  updated_at : Nat
deriving Repr, DecidableEq

/-- Row of the `user_purchases` table (`005_create_payments.sql`); the table
carries `UNIQUE(user_id, book_id)`. -/
structure Purchase where
  user_id : Nat
  book_id : Nat
  order_id : Nat
  purchased_at : Nat
  download_count : Nat
deriving Repr, DecidableEq

/-- Row of the `payment_logs` table (`005_create_payments.sql`), restricted to
the columns written by `complete_payment_atomic`. -/
structure PaymentLog where
  order_id : Nat
  transaction_id : String
  transaction_status : String
  webhook_data : String
deriving Repr, DecidableEq

/-- Row of the `webhook_events` dedup ledger
(`010_payment_service_enhancements.sql`); the table carries
`UNIQUE(transaction_id, event_type)`. -/
structure WebhookEvent where
  transaction_id : String
  order_id : String
  event_type : String
  payload : String
deriving Repr, DecidableEq

/-- Row of the `books` table, restricted to what the order functions read. -/
structure Book where
  id : Nat
  is_active : Bool
deriving Repr, DecidableEq

/-- Row of the `audit_logs` table, restricted to the columns the payment
functions write. -/
structure AuditLog where
  user_id : Option Nat
  action : String
deriving Repr, DecidableEq

/-- The database state touched by the payment engine. -/
structure DB where
  books : List Book
  orders : List Order
  user_purchases : List Purchase
  payment_logs : List PaymentLog
  webhook_events : List WebhookEvent
  audit_logs : List AuditLog
deriving Repr, DecidableEq

/-- `SELECT * FROM orders WHERE order_number = onum` (the column is UNIQUE,
so the first match is the row). -/
def lookupOrder (db : DB) (onum : String) : Option Order :=
  db.orders.find? (fun o => o.order_number == onum)

/-- Status of the order with the given order number, if any. -/
def orderStatusByNumber (db : DB) (onum : String) : Option String :=
  (lookupOrder db onum).map Order.status

/-- `EXISTS(SELECT 1 FROM user_purchases WHERE order_id = oid)`. -/
def purchaseRefs (db : DB) (oid : Nat) : Bool :=
  db.user_purchases.any (fun p => p.order_id == oid)

/-- `EXISTS(SELECT 1 FROM user_purchases WHERE user_id = u AND book_id = b)`:
this is also exactly the condition under which inserting a purchase for
`(u, b)` raises `unique_violation` against `UNIQUE(user_id, book_id)`. -/
def pairConflict (db : DB) (u b : Nat) : Bool :=
  db.user_purchases.any (fun p => p.user_id == u && p.book_id == b)

/-- `EXISTS(SELECT 1 FROM books WHERE id = b AND is_active = true)`. -/
def bookActive (db : DB) (b : Nat) : Bool :=
  db.books.any (fun bk => bk.id == b && bk.is_active)

/-- `SELECT id FROM webhook_events WHERE transaction_id = tx AND event_type = ev`
returned a row. -/
def webhookSeen (db : DB) (tx ev : String) : Bool :=
  db.webhook_events.any (fun e => e.transaction_id == tx && e.event_type == ev)

/-- Result of `complete_payment_atomic`, mirroring the jsonb objects the
function returns: `error` strings `ORDER_NOT_FOUND`, `ALREADY_PROCESSED`
(with `success = true`), `ORDER_NOT_PENDING`, the `WHEN OTHERS` handler
(which reports `SQLERRM`), and the success object. -/
inductive CompleteResult where
  | orderNotFound
  | alreadyProcessed
  | orderNotPending (current_status : String)
  | sqlError (msg : String)
  | ok (order_id : Nat)
deriving Repr, DecidableEq

/-- The `success` field of the jsonb object returned by
`complete_payment_atomic`. -/
def CompleteResult.success : CompleteResult → Bool
  | .orderNotFound => false
  | .alreadyProcessed => true
  | .orderNotPending _ => false
  | .sqlError _ => false
  | .ok _ => true

/-- Row-wise effect of `UPDATE orders SET status = 'paid', paid_at = NOW(),
updated_at = NOW() WHERE id = vid`. -/
def paidUpdate (now vid : Nat) (o : Order) : Order :=
  if o.id == vid then
    { o with status := "paid", paid_at := some now, updated_at := now }
  else o

/-- `complete_payment_atomic(p_order_number, p_transaction_id, p_webhook_data)`
from `011_add_refresh_tokens.sql` (lines 273-343).  The function runs in a
single transaction holding `FOR UPDATE` on the order row; sequentially it is
a state transformer on `DB`.  The `INSERT INTO user_purchases` can raise
`unique_violation` against `UNIQUE(user_id, book_id)` when a purchase for the
same pair exists under a different order; the block's
`EXCEPTION WHEN OTHERS` handler rolls back every write of the block and
returns `success = false` with `SQLERRM`, so that branch leaves the database
unchanged. -/
def complete_payment_atomic (now : Nat) (p_order_number : String)
    (p_transaction_id : String) (p_webhook_data : String) (db : DB) :
    CompleteResult × DB :=
  match lookupOrder db p_order_number with
  | none => (.orderNotFound, db)
  | some v_order =>
    if purchaseRefs db v_order.id then
      (.alreadyProcessed, db)
    else if v_order.status ≠ "pending" then
      (.orderNotPending v_order.status, db)
    else if pairConflict db v_order.user_id v_order.book_id then
      (.sqlError "unique_violation", db)
    else
      (.ok v_order.id,
        { db with
          orders := db.orders.map (paidUpdate now v_order.id)
          user_purchases := db.user_purchases ++
            [⟨v_order.user_id, v_order.book_id, v_order.id, now, 0⟩]
          payment_logs := db.payment_logs ++
            [⟨v_order.id, p_transaction_id, "settlement", p_webhook_data⟩]
          audit_logs := db.audit_logs ++
            [⟨some v_order.user_id, "PAYMENT_COMPLETED"⟩] })

/-- Result of `create_order_with_idempotency`, mirroring its jsonb returns:
`BOOK_NOT_FOUND`, `BOOK_ALREADY_PURCHASED`, the `unique_violation` handler
(`DUPLICATE_ORDER`), and the success object. -/
inductive CreateResult where
  | bookNotFound
  | alreadyPurchased
  | duplicateOrder
  | ok (order_id : Nat) (order_number : String)
deriving Repr, DecidableEq

/-- The `success` field of the jsonb object returned by
`create_order_with_idempotency`. -/
def CreateResult.success : CreateResult → Bool
  | .bookNotFound => false
  | .alreadyPurchased => false
  | .duplicateOrder => false
  | .ok _ _ => true

/-- True when inserting a fresh order row with the given primary key, order
number and idempotency key would violate one of the UNIQUE constraints of the
`orders` table (`id` PRIMARY KEY, `order_number UNIQUE`,
`idempotency_key UNIQUE` on non-null values). -/
def orderInsertConflict (db : DB) (oid : Nat) (onum : String)
    (key : Option String) : Bool :=
  db.orders.any (fun o =>
    o.id == oid || o.order_number == onum ||
      (key.isSome && o.idempotency_key == key))

/-- `create_order_with_idempotency(p_user_id, p_book_id, p_amount,
p_payment_method, p_idempotency_key)` from
`010_payment_service_enhancements.sql` (lines 67-118).  The randomly
generated `v_order_number` and `v_order_id := gen_random_uuid()` are passed
in as parameters.  A `unique_violation` on the insert is caught and reported
as `DUPLICATE_ORDER` with `success = false`; the exception handler rolls the
insert back, so the database is unchanged on that branch. -/
def create_order_with_idempotency (now : Nat) (p_user_id p_book_id : Nat)
    (p_amount : Int) (p_payment_method : String)
    (p_idempotency_key : Option String)
    (v_order_id : Nat) (v_order_number : String) (db : DB) :
    CreateResult × DB :=
  if ¬ bookActive db p_book_id then
    (.bookNotFound, db)
  else if pairConflict db p_user_id p_book_id then
    (.alreadyPurchased, db)
  else if orderInsertConflict db v_order_id v_order_number p_idempotency_key then
    (.duplicateOrder, db)
  else
    (.ok v_order_id v_order_number,
      { db with orders := db.orders ++
        [{ id := v_order_id, order_number := v_order_number,
           user_id := p_user_id, book_id := p_book_id, amount := p_amount,
           status := "pending", payment_method := p_payment_method,
           idempotency_key := p_idempotency_key, paid_at := none,
           expires_at := now + 24 * 60 * 60, updated_at := now }] })

/-- Result of `process_webhook_event`: both branches return
`success = true`; they differ in the `duplicate` flag. -/
structure WebhookResult where
  success : Bool
  duplicate : Bool
deriving Repr, DecidableEq

/-- `process_webhook_event(p_transaction_id, p_order_id, p_event_type,
p_payload)` from `010_payment_service_enhancements.sql` (lines 121-154):
look up `(transaction_id, event_type)` in the ledger; on a hit return
`duplicate = true` and do nothing, otherwise insert the ledger row and
return `duplicate = false`.  The function touches no table other than
`webhook_events`. -/
def process_webhook_event (p_transaction_id p_order_id p_event_type
    p_payload : String) (db : DB) : WebhookResult × DB :=
  if webhookSeen db p_transaction_id p_event_type then
    ({ success := true, duplicate := true }, db)
  else
    ({ success := true, duplicate := false },
      { db with webhook_events := db.webhook_events ++
        [⟨p_transaction_id, p_order_id, p_event_type, p_payload⟩] })

/-- The row-wise effect of the sweep's UPDATE: an order that is `pending`
and past its `expires_at` becomes `expired`; any other order is untouched. -/
def expireOne (now : Nat) (o : Order) : Order :=
  if o.status = "pending" ∧ o.expires_at < now then
    { o with status := "expired", updated_at := now }
  else o

/-- `cleanup_expired_orders()` from `011_add_refresh_tokens.sql`
(lines 346-363): `UPDATE orders SET status = 'expired' WHERE status =
'pending' AND expires_at < NOW()`, returning `ROW_COUNT`, plus one audit
log row. -/
def cleanup_expired_orders (now : Nat) (db : DB) : Nat × DB :=
  ((db.orders.filter (fun o =>
      o.status == "pending" && decide (o.expires_at < now))).length,
    { db with
      orders := db.orders.map (expireOne now)
      audit_logs := db.audit_logs ++ [⟨none, "EXPIRED_ORDERS_CLEANUP"⟩] })

/-!
Client-side Payment Monitor (`frontend/js/payment.js`).  JavaScript timers
are modelled explicitly: every `setInterval` / `setTimeout` callback becomes
a `MTask` in a queue, and the event loop repeatedly executes the task with
the earliest deadline (ties resolved in favour of the earlier-registered
task, as in a browser).  `clearInterval(this.statusCheckInterval)` is
modelled by a generation counter: a `statusPoll` tick fires only when the
polling flag is set and its generation matches the current one, and a live
tick re-queues itself 5000 ms later, which is exactly the observable
behaviour of the interval. -/

/-- A scheduled timer callback of `PaymentManager`:
`statusPoll gen` is a tick of the 5-second `setInterval` of
`startStatusPolling`; `stopPollingTimeout` is its 30-minute `setTimeout`;
`windowCheck` is a tick of the 1-second window-closure `setInterval` of
`startPaymentMonitoring`; `graceCheck` is the `setTimeout(..., 2000)`
scheduled when the payment window is found closed. -/
inductive MTaskKind where
  | statusPoll (gen : Nat)
  | stopPollingTimeout
  | windowCheck
  | graceCheck
deriving Repr, DecidableEq

/-- A pending timer: its absolute due time in milliseconds and its kind. -/
structure MTask where
  due : Nat
  kind : MTaskKind
deriving Repr, DecidableEq

/-- State of one `PaymentManager` monitoring session.
`statusPollActive`/`statusGen` model `this.statusCheckInterval` (non-null
flag plus interval identity); `hasOrder` models `this.currentOrder ≠ null`
and `orderStatus` its `order.status` field; `events` is the log of
`triggerPaymentCallbacks` invocations as (time, eventType); `checks` records
each time `checkPaymentStatus` actually queried the order status endpoint. -/
structure Monitor where
  now : Nat
  tasks : List MTask
  statusPollActive : Bool
  statusGen : Nat
  windowCheckActive : Bool
  hasOrder : Bool
  orderStatus : String
  events : List (Nat × String)
  checks : List Nat
deriving Repr, DecidableEq

/-- The monitor's environment: what the order-status endpoint reports at
each instant, and the earliest instant (if any) at which
`paymentWindow.closed` is true. -/
structure MonitorEnv where
  serverStatus : Nat → String
  windowClosedAt : Option Nat

/-- Whether `this.paymentWindow.closed` holds at time `t`. -/
def MonitorEnv.windowClosed (env : MonitorEnv) (t : Nat) : Bool :=
  match env.windowClosedAt with
  | some c => c ≤ t
  | none => false

/-- `stopStatusPolling()`: `clearInterval(this.statusCheckInterval)` and
null the handle. -/
def stopStatusPolling (m : Monitor) : Monitor :=
  { m with statusPollActive := false }

/-- `handlePaymentSuccess(order)`: stop polling, fire the
`payment_success` callbacks, reset `currentOrder`. -/
def handlePaymentSuccess (m : Monitor) : Monitor :=
  let m := stopStatusPolling m
  { m with events := m.events ++ [(m.now, "payment_success")], hasOrder := false }

/-- `handlePaymentFailure(order, status)`: stop polling, fire the
`payment_failed` callbacks, reset `currentOrder`. -/
def handlePaymentFailure (m : Monitor) : Monitor :=
  let m := stopStatusPolling m
  { m with events := m.events ++ [(m.now, "payment_failed")], hasOrder := false }

/-- `checkPaymentStatus()`: if there is no current order, return
immediately; otherwise query the status endpoint (recorded in `checks`) and,
when the status changed, update the cached order, dispatch on the new status
(`paid` / `failed` / `cancelled` / `expired` / `pending`), and fire the
`status_changed` callbacks. -/
def checkPaymentStatus (env : MonitorEnv) (m : Monitor) : Monitor :=
  if ¬ m.hasOrder then m
  else
    let m := { m with checks := m.checks ++ [m.now] }
    let s := env.serverStatus m.now
    if s ≠ m.orderStatus then
      let m := { m with orderStatus := s }
      let m :=
        if s = "paid" then handlePaymentSuccess m
        else if s = "failed" ∨ s = "cancelled" ∨ s = "expired" then
          handlePaymentFailure m
        else if s = "pending" then
          { m with events := m.events ++ [(m.now, "payment_pending")] }
        else m
      { m with events := m.events ++ [(m.now, "status_changed")] }
    else m

/-- `startStatusPolling()`: clear any existing interval, then
`setInterval(checkPaymentStatus, 5000)` and
`setTimeout(stopStatusPolling, 30 * 60 * 1000)`. -/
def startStatusPolling (m : Monitor) : Monitor :=
  let g := m.statusGen + 1
  { m with
    statusPollActive := true
    statusGen := g
    tasks := m.tasks ++
      [⟨m.now + 5000, .statusPoll g⟩,
       ⟨m.now + 30 * 60 * 1000, .stopPollingTimeout⟩] }

/-- `startPaymentMonitoring()`: start the status polling and
`setInterval(windowCheck, 1000)` watching for window closure. -/
def startPaymentMonitoring (m : Monitor) : Monitor :=
  let m := startStatusPolling m
  { m with
    windowCheckActive := true
    tasks := m.tasks ++ [⟨m.now + 1000, .windowCheck⟩] }

/-- Remove the earliest-due task from the queue (the first among equals, as
browser timer queues fire same-deadline timers in registration order). -/
def pickMin : List MTask → Option (MTask × List MTask)
  | [] => none
  | t :: rest =>
    match pickMin rest with
    | none => some (t, [])
    | some (t', rest') =>
      if t.due ≤ t'.due then some (t, rest) else some (t', t :: rest')

/-- Execute one timer callback: advance the clock to the earliest deadline
and run the corresponding handler from `payment.js`.  A dead `statusPoll`
tick (cleared interval or superseded generation) does nothing; a live one
runs `checkPaymentStatus` and re-queues itself 5000 ms later if the interval
is still live.  A `windowCheck` tick either detects closure (clearing its
own interval, firing `payment_window_closed`, and scheduling the single
grace-delay check 2000 ms later) or re-queues itself 1000 ms later. -/
def mstep (env : MonitorEnv) (m : Monitor) : Monitor :=
  match pickMin m.tasks with
  | none => m
  | some (t, rest) =>
    let m := { m with tasks := rest, now := t.due }
    match t.kind with
    | .statusPoll g =>
      if m.statusPollActive && g == m.statusGen then
        let m := checkPaymentStatus env m
        if m.statusPollActive && g == m.statusGen then
          { m with tasks := m.tasks ++ [⟨m.now + 5000, .statusPoll g⟩] }
        else m
      else m
    | .stopPollingTimeout => stopStatusPolling m
    | .windowCheck =>
      if m.windowCheckActive then
        if env.windowClosed m.now then
          let m := { m with
            windowCheckActive := false
            events := m.events ++ [(m.now, "payment_window_closed")] }
          { m with tasks := m.tasks ++ [⟨m.now + 2000, .graceCheck⟩] }
        else
          { m with tasks := m.tasks ++ [⟨m.now + 1000, .windowCheck⟩] }
      else m
    | .graceCheck => checkPaymentStatus env m

/-- Run `n` steps of the timer event loop. -/
def mrun (env : MonitorEnv) (m : Monitor) : Nat → Monitor
  | 0 => m
  | n + 1 => mrun env (mstep env m) n

/-- A fresh monitor at time 0, holding a `pending` current order, before
`startPaymentMonitoring` is called. -/
def monitor0 : Monitor :=
  { now := 0, tasks := [], statusPollActive := false, statusGen := 0,
    windowCheckActive := false, hasOrder := true, orderStatus := "pending",
    events := [], checks := [] }

/-- Invariant of the `user_purchases` table enforced by
`UNIQUE(user_id, book_id)`: no two rows share the same user/book pair. -/
def purchasesUnique (db : DB) : Prop :=
  db.user_purchases.Pairwise
    (fun p q => ¬ (p.user_id = q.user_id ∧ p.book_id = q.book_id))

instance (db : DB) : Decidable (purchasesUnique db) := by
  unfold purchasesUnique; infer_instance

/-! Concrete fixtures used by witnesses and counterexamples. -/

/-- An active book. -/
def bookA : Book := ⟨3, true⟩

/-- A settled order for user 7 and book 3. -/
def orderPaid : Order :=
  { id := 1, order_number := "ORD-1", user_id := 7, book_id := 3,
    amount := 50000, status := "paid", payment_method := "qris",
    idempotency_key := none, paid_at := some 100, expires_at := 86400,
    updated_at := 100 }

/-- A second, still `pending` order of the same user for the same book. -/
def orderPending : Order :=
  { id := 2, order_number := "ORD-2", user_id := 7, book_id := 3,
    amount := 50000, status := "pending", payment_method := "qris",
    idempotency_key := none, paid_at := none, expires_at := 86400,
    updated_at := 50 }

/-- Database holding a single pending order and no purchases. -/
def dbPending : DB :=
  { books := [bookA], orders := [orderPending], user_purchases := [],
    payment_logs := [], webhook_events := [], audit_logs := [] }

/-- Database where order 1 already settled (its purchase row exists) and a
second pending order of the same user for the same book awaits settlement. -/
def dbConflict : DB :=
  { books := [bookA], orders := [orderPaid, orderPending],
    user_purchases := [⟨7, 3, 1, 100, 0⟩], payment_logs := [],
    webhook_events := [], audit_logs := [] }

/-- State after a first `create_order_with_idempotency` call with
idempotency key `abc` against `dbPending`. -/
def dbAfterFirst : DB :=
  (create_order_with_idempotency 10 7 3 50000 "qris" (some "abc")
    11 "ORD-A" dbPending).2

/-- Monitor environment where the order stays `pending` forever and the
user closes the payment window at t = 1500 ms. -/
def envClosed : MonitorEnv :=
  { serverStatus := fun _ => "pending", windowClosedAt := some 1500 }

/-- Monitor environment where the order stays `pending` forever and the
payment window is never closed. -/
def envPending : MonitorEnv :=
  { serverStatus := fun _ => "pending", windowClosedAt := none }

/-- A monitor in the middle of a polling session: the next 5-second tick
and the 30-minute stop timer are queued. -/
def mPoll : Monitor :=
  { now := 0, tasks := [⟨5000, .statusPoll 1⟩, ⟨1800000, .stopPollingTimeout⟩],
    statusPollActive := true, statusGen := 1, windowCheckActive := false,
    hasOrder := true, orderStatus := "pending", events := [], checks := [] }

/-- A monitor whose only remaining task is the 30-minute stop timer. -/
def mStop : Monitor :=
  { mPoll with tasks := [⟨1800000, .stopPollingTimeout⟩] }

/-- A monitor whose earliest task is a window-closure tick at t = 2000 ms,
with the payment window already closed. -/
def mWin : Monitor :=
  { mPoll with
    windowCheckActive := true
    tasks := [⟨5000, .statusPoll 1⟩, ⟨1800000, .stopPollingTimeout⟩,
      ⟨2000, .windowCheck⟩] }

/-- A monitor whose earliest task is the grace-delay check scheduled after
the window was found closed. -/
def mGrace : Monitor :=
  { mPoll with
    windowCheckActive := false
    tasks := [⟨5000, .statusPoll 1⟩, ⟨1800000, .stopPollingTimeout⟩,
      ⟨4000, .graceCheck⟩] }

/-! Helper lemmas. -/

/-- `find?` over a mapped list whose map preserves the search key: looking
an order up by `order_number` after a row-wise `UPDATE` that does not touch
`order_number` finds the updated image of the original row. -/
theorem find?_map_of_preserves (g : Order → Order)
    (hg : ∀ o, (g o).order_number = o.order_number)
    (orders : List Order) (onum : String) :
    (orders.map g).find? (fun o => o.order_number == onum) =
      (orders.find? (fun o => o.order_number == onum)).map g := by
  induction orders with
  | nil => rfl
  | cons a l ih =>
    rcases h : (a.order_number == onum) with _ | _
    · rw [List.map_cons, List.find?_cons_of_neg _ (by simp [hg a, h]),
        List.find?_cons_of_neg _ (by simp [h]), ih]
    · rw [List.map_cons, List.find?_cons_of_pos _ (by simp [hg a, h]),
        List.find?_cons_of_pos _ (by simp [h])]
      rfl

/-- `paidUpdate` does not change an order's number. -/
theorem paidUpdate_order_number (now vid : Nat) (o : Order) :
    (paidUpdate now vid o).order_number = o.order_number := by
  unfold paidUpdate; split <;> rfl

/-- `expireOne` does not change an order's number. -/
theorem expireOne_order_number (now : Nat) (o : Order) :
    (expireOne now o).order_number = o.order_number := by
  unfold expireOne; split <;> rfl

/-- The sweep's guarded UPDATE is a no-op on any order that is not
`pending`. -/
theorem expireOne_of_not_pending (now : Nat) (o : Order)
    (h : o.status ≠ "pending") : expireOne now o = o := by
  unfold expireOne
  rw [if_neg (by intro hc; exact h hc.1)]

/-- Branch lemma: unknown order number. -/
theorem complete_eq_notFound (now : Nat) (onum tx payload : String) (db : DB)
    (h : lookupOrder db onum = none) :
    complete_payment_atomic now onum tx payload db = (.orderNotFound, db) := by
  simp [complete_payment_atomic, h]

/-- Branch lemma: a purchase already references the order. -/
theorem complete_eq_already (now : Nat) (onum tx payload : String) (db : DB)
    (o : Order) (ho : lookupOrder db onum = some o)
    (h1 : purchaseRefs db o.id = true) :
    complete_payment_atomic now onum tx payload db = (.alreadyProcessed, db) := by
  simp [complete_payment_atomic, ho, h1]

/-- Branch lemma: order no longer pending. -/
theorem complete_eq_notPending (now : Nat) (onum tx payload : String) (db : DB)
    (o : Order) (ho : lookupOrder db onum = some o)
    (h1 : purchaseRefs db o.id = false) (h2 : o.status ≠ "pending") :
    complete_payment_atomic now onum tx payload db =
      (.orderNotPending o.status, db) := by
  simp [complete_payment_atomic, ho, h1, h2]

/-- Branch lemma: the purchase insert hits `UNIQUE(user_id, book_id)`; the
exception handler rolls the whole block back. -/
theorem complete_eq_conflict (now : Nat) (onum tx payload : String) (db : DB)
    (o : Order) (ho : lookupOrder db onum = some o)
    (h1 : purchaseRefs db o.id = false) (h2 : o.status = "pending")
    (h3 : pairConflict db o.user_id o.book_id = true) :
    complete_payment_atomic now onum tx payload db =
      (.sqlError "unique_violation", db) := by
  simp [complete_payment_atomic, ho, h1, h2, h3]

/-- Branch lemma: the settlement path, with all four writes. -/
theorem complete_eq_ok (now : Nat) (onum tx payload : String) (db : DB)
    (o : Order) (ho : lookupOrder db onum = some o)
    (h1 : purchaseRefs db o.id = false) (h2 : o.status = "pending")
    (h3 : pairConflict db o.user_id o.book_id = false) :
    complete_payment_atomic now onum tx payload db =
      (.ok o.id,
       { db with
         orders := db.orders.map (paidUpdate now o.id)
         user_purchases := db.user_purchases ++
           [⟨o.user_id, o.book_id, o.id, now, 0⟩]
         payment_logs := db.payment_logs ++
           [⟨o.id, tx, "settlement", payload⟩]
         audit_logs := db.audit_logs ++
           [⟨some o.user_id, "PAYMENT_COMPLETED"⟩] }) := by
  simp [complete_payment_atomic, ho, h1, h2, h3]

/-- The update of the settlement path really marks the target row paid. -/
theorem paidUpdate_self (now : Nat) (o : Order) :
    paidUpdate now o.id o =
      { o with status := "paid", paid_at := some now, updated_at := now } := by
  simp [paidUpdate]

/-- Looking an order up after the settlement UPDATE finds its paid image
(stated for any state whose order table is the updated one, since the
settlement transaction also appends to other tables). -/
theorem lookupOrder_after_paid (now vid : Nat) (onum : String) (db db' : DB)
    (o : Order) (horders : db'.orders = db.orders.map (paidUpdate now vid))
    (ho : lookupOrder db onum = some o) :
    lookupOrder db' onum = some (paidUpdate now vid o) := by
  unfold lookupOrder at ho ⊢
  rw [horders, find?_map_of_preserves _ (paidUpdate_order_number now vid), ho]
  rfl

/-- Looking an order up after the expiry sweep finds its `expireOne`
image. -/
theorem lookupOrder_after_sweep (now : Nat) (onum : String) (db db' : DB)
    (o : Order) (horders : db'.orders = db.orders.map (expireOne now))
    (ho : lookupOrder db onum = some o) :
    lookupOrder db' onum = some (expireOne now o) := by
  unfold lookupOrder at ho ⊢
  rw [horders, find?_map_of_preserves _ (expireOne_order_number now), ho]
  rfl

/-- The sweep's guarded UPDATE expires a stale pending order. -/
theorem expireOne_of_stale (now : Nat) (o : Order)
    (h1 : o.status = "pending") (h2 : o.expires_at < now) :
    expireOne now o = { o with status := "expired", updated_at := now } := by
  simp [expireOne, h1, h2]

/-! Claim theorems. -/

/-- C1 counterexample: the claim's final arm fails when a purchase for the
order's `(user_id, book_id)` pair already exists under a *different* order.
In `dbConflict`, order `ORD-2` exists and is `pending` and no purchase
references it, so by the claim the call should settle it; instead the
purchase insert raises `unique_violation` and the call returns failure with
the database unchanged. -/
theorem C1_counterexample :
    lookupOrder dbConflict "ORD-2" = some orderPending ∧
    purchaseRefs dbConflict orderPending.id = false ∧
    orderPending.status = "pending" ∧
    complete_payment_atomic 200 "ORD-2" "tx-1" "payload" dbConflict =
      (.sqlError "unique_violation", dbConflict) ∧
    (CompleteResult.sqlError "unique_violation").success = false := by
  decide

/-- C1 (amended): payment completion behaves by cases on the locked order:
unknown order number fails with `ORDER_NOT_FOUND`; an order already
referenced by a purchase returns success `ALREADY_PROCESSED` and changes
nothing; a non-`pending` order fails with `ORDER_NOT_PENDING` and changes
nothing; a pending order whose `(user_id, book_id)` pair already owns a
purchase under another order fails with a rolled-back `unique_violation`
and changes nothing; otherwise the call marks the order `paid` with
`paid_at` set, inserts exactly one purchase row for the order's
`(user_id, book_id, order_id)`, and records one payment-log entry. -/
theorem C1_amended_transition (now : Nat) (onum tx payload : String)
    (db : DB) :
    (lookupOrder db onum = none →
      complete_payment_atomic now onum tx payload db = (.orderNotFound, db)) ∧
    (∀ o, lookupOrder db onum = some o → purchaseRefs db o.id = true →
      complete_payment_atomic now onum tx payload db = (.alreadyProcessed, db) ∧
      CompleteResult.alreadyProcessed.success = true) ∧
    (∀ o, lookupOrder db onum = some o → purchaseRefs db o.id = false →
      o.status ≠ "pending" →
      complete_payment_atomic now onum tx payload db =
        (.orderNotPending o.status, db) ∧
      (CompleteResult.orderNotPending o.status).success = false) ∧
    (∀ o, lookupOrder db onum = some o → purchaseRefs db o.id = false →
      o.status = "pending" → pairConflict db o.user_id o.book_id = true →
      complete_payment_atomic now onum tx payload db =
        (.sqlError "unique_violation", db)) ∧
    (∀ o, lookupOrder db onum = some o → purchaseRefs db o.id = false →
      o.status = "pending" → pairConflict db o.user_id o.book_id = false →
      (complete_payment_atomic now onum tx payload db).1 = .ok o.id ∧
      lookupOrder (complete_payment_atomic now onum tx payload db).2 onum =
        some { o with status := "paid", paid_at := some now
                      updated_at := now } ∧
      (complete_payment_atomic now onum tx payload db).2.user_purchases =
        db.user_purchases ++ [⟨o.user_id, o.book_id, o.id, now, 0⟩] ∧
      (complete_payment_atomic now onum tx payload db).2.payment_logs =
        db.payment_logs ++ [⟨o.id, tx, "settlement", payload⟩]) := by
  refine ⟨fun h => complete_eq_notFound now onum tx payload db h,
    fun o ho h1 => ⟨complete_eq_already now onum tx payload db o ho h1, rfl⟩,
    fun o ho h1 h2 =>
      ⟨complete_eq_notPending now onum tx payload db o ho h1 h2, rfl⟩,
    fun o ho h1 h2 h3 => complete_eq_conflict now onum tx payload db o ho h1 h2 h3,
    fun o ho h1 h2 h3 => ?_⟩
  rw [complete_eq_ok now onum tx payload db o ho h1 h2 h3]
  refine ⟨rfl, ?_, rfl, rfl⟩
  rw [lookupOrder_after_paid now o.id onum db _ o rfl ho, paidUpdate_self]

/-- C1 witness: settling the concrete pending order of `dbPending` marks it
paid, inserts its purchase row and its payment-log row. -/
theorem C1_witness :
    (complete_payment_atomic 200 "ORD-2" "tx9" "pl" dbPending).1 = .ok 2 ∧
    lookupOrder (complete_payment_atomic 200 "ORD-2" "tx9" "pl" dbPending).2
        "ORD-2" =
      some { orderPending with status := "paid", paid_at := some 200
                               updated_at := 200 } ∧
    (complete_payment_atomic 200 "ORD-2" "tx9" "pl" dbPending).2.user_purchases =
      dbPending.user_purchases ++ [⟨7, 3, 2, 200, 0⟩] ∧
    (complete_payment_atomic 200 "ORD-2" "tx9" "pl" dbPending).2.payment_logs =
      dbPending.payment_logs ++ [⟨2, "tx9", "settlement", "pl"⟩] := by
  have h := (C1_amended_transition 200 "ORD-2" "tx9" "pl" dbPending).2.2.2.2
    orderPending (by decide) (by decide) (by decide) (by decide)
  exact ⟨h.1, h.2.1, h.2.2.1, h.2.2.2⟩

/-- C2: the `UNIQUE(user_id, book_id)` discipline of `user_purchases` is
preserved by payment completion, and when some purchase for the order's
pair already exists (for instance because a second order of the same user
for the same book is being settled), the call either reports the idempotent
`ALREADY_PROCESSED` success or fails, and in both cases inserts no second
purchase row. -/
theorem C2_no_double_purchase (now : Nat) (onum tx payload : String)
    (db : DB) (h : purchasesUnique db) :
    purchasesUnique (complete_payment_atomic now onum tx payload db).2 ∧
    (∀ o, lookupOrder db onum = some o →
      pairConflict db o.user_id o.book_id = true →
      (complete_payment_atomic now onum tx payload db).2.user_purchases =
        db.user_purchases ∧
      ((complete_payment_atomic now onum tx payload db).1 = .alreadyProcessed ∨
        (complete_payment_atomic now onum tx payload db).1.success = false)) := by
  constructor
  · rcases hf : lookupOrder db onum with _ | o
    · rw [complete_eq_notFound now onum tx payload db hf]; exact h
    · rcases h1 : purchaseRefs db o.id with _ | _
      · by_cases h2 : o.status = "pending"
        · rcases h3 : pairConflict db o.user_id o.book_id with _ | _
          · rw [complete_eq_ok now onum tx payload db o hf h1 h2 h3]
            unfold purchasesUnique at h ⊢
            show (db.user_purchases ++ [_]).Pairwise _
            rw [List.pairwise_append]
            refine ⟨h, List.pairwise_singleton _ _, ?_⟩
            intro p hp q hq
            rw [List.mem_singleton] at hq
            subst hq
            rintro ⟨hu, hb⟩
            have : pairConflict db o.user_id o.book_id = true := by
              unfold pairConflict
              rw [List.any_eq_true]
              exact ⟨p, hp, by simp [hu, hb]⟩
            rw [h3] at this
            exact Bool.false_ne_true this
          · rw [complete_eq_conflict now onum tx payload db o hf h1 h2 h3]
            exact h
        · rw [complete_eq_notPending now onum tx payload db o hf h1 h2]
          exact h
      · rw [complete_eq_already now onum tx payload db o hf h1]
        exact h
  · intro o ho hconf
    rcases h1 : purchaseRefs db o.id with _ | _
    · by_cases h2 : o.status = "pending"
      · rw [complete_eq_conflict now onum tx payload db o ho h1 h2 hconf]
        exact ⟨rfl, Or.inr rfl⟩
      · rw [complete_eq_notPending now onum tx payload db o ho h1 h2]
        exact ⟨rfl, Or.inr rfl⟩
    · rw [complete_eq_already now onum tx payload db o ho h1]
      exact ⟨rfl, Or.inl rfl⟩

/-- C2 witness: in `dbConflict` (order 1 settled with its purchase row,
order 2 pending for the same user and book) settling order 2 inserts no
second purchase row, fails, and preserves uniqueness of the pair. -/
theorem C2_witness :
    purchasesUnique (complete_payment_atomic 200 "ORD-2" "tx9" "pl"
      dbConflict).2 ∧
    (complete_payment_atomic 200 "ORD-2" "tx9" "pl" dbConflict).2.user_purchases =
      dbConflict.user_purchases ∧
    ((complete_payment_atomic 200 "ORD-2" "tx9" "pl" dbConflict).1 =
        .alreadyProcessed ∨
      (complete_payment_atomic 200 "ORD-2" "tx9" "pl" dbConflict).1.success =
        false) := by
  have h := C2_no_double_purchase 200 "ORD-2" "tx9" "pl" dbConflict (by decide)
  have h2 := h.2 orderPending (by decide) (by decide)
  exact ⟨h.1, h2.1, h2.2⟩

/-- C5: when the settlement path fails after the lock (the modelled failure
is the purchase insert violating `UNIQUE(user_id, book_id)`), the
`EXCEPTION` handler rolls the whole transition back — the database is
returned unchanged, so the order is still `pending` and neither a purchase
row nor a payment-log row is persisted — and the identical call retried at
any later time behaves the same way on the unchanged state. -/
theorem C5_rollback (now retry_now : Nat) (onum tx payload : String)
    (db : DB) (o : Order) (hfind : lookupOrder db onum = some o)
    (href : purchaseRefs db o.id = false) (hpend : o.status = "pending")
    (hconf : pairConflict db o.user_id o.book_id = true) :
    complete_payment_atomic now onum tx payload db =
      (.sqlError "unique_violation", db) ∧
    (complete_payment_atomic now onum tx payload db).2.user_purchases =
      db.user_purchases ∧
    (complete_payment_atomic now onum tx payload db).2.payment_logs =
      db.payment_logs ∧
    orderStatusByNumber (complete_payment_atomic now onum tx payload db).2
      onum = some "pending" ∧
    complete_payment_atomic retry_now onum tx payload
        (complete_payment_atomic now onum tx payload db).2 =
      (.sqlError "unique_violation",
        (complete_payment_atomic now onum tx payload db).2) := by
  have he := complete_eq_conflict now onum tx payload db o hfind href hpend hconf
  refine ⟨he, by rw [he], by rw [he], ?_, ?_⟩
  · rw [he]
    show (lookupOrder db onum).map Order.status = some "pending"
    rw [hfind]
    simp [hpend]
  · rw [he]
    exact complete_eq_conflict retry_now onum tx payload db o hfind href
      hpend hconf

/-- C5 witness: the concrete conflicting settlement of `dbConflict` rolls
back fully and a verbatim retry returns the same failure on the same
state. -/
theorem C5_witness :
    complete_payment_atomic 200 "ORD-2" "tx9" "pl" dbConflict =
      (.sqlError "unique_violation", dbConflict) ∧
    orderStatusByNumber (complete_payment_atomic 200 "ORD-2" "tx9" "pl"
      dbConflict).2 "ORD-2" = some "pending" ∧
    complete_payment_atomic 300 "ORD-2" "tx9" "pl"
        (complete_payment_atomic 200 "ORD-2" "tx9" "pl" dbConflict).2 =
      (.sqlError "unique_violation",
        (complete_payment_atomic 200 "ORD-2" "tx9" "pl" dbConflict).2) := by
  have h := C5_rollback 200 300 "ORD-2" "tx9" "pl" dbConflict orderPending
    (by decide) (by decide) (by decide) (by decide)
  exact ⟨h.1, h.2.2.2.1, h.2.2.2.2⟩

/-- C3 counterexample: after a first successful creation with idempotency
key `abc`, a second creation call with the same key does create no second
row — but it returns `success = false` with error `DUPLICATE_ORDER`
instead of returning the original order as a success, contradicting the
claim's "returns the original order unchanged as a success, rather than an
error". -/
theorem C3_counterexample :
    (create_order_with_idempotency 10 7 3 50000 "qris" (some "abc")
        11 "ORD-A" dbPending).1 = .ok 11 "ORD-A" ∧
    create_order_with_idempotency 20 7 3 50000 "qris" (some "abc")
        12 "ORD-B" dbAfterFirst = (.duplicateOrder, dbAfterFirst) ∧
    CreateResult.duplicateOrder.success = false ∧
    (dbAfterFirst.orders.filter
      (fun o => o.idempotency_key == some "abc")).length = 1 := by
  decide

/-- C3 (amended): when the idempotency key of an order-creation call
matches the key of exactly one existing order row (and the book and
ownership guards pass), the insert raises `unique_violation`, the handler
rolls it back, and the call returns failure `DUPLICATE_ORDER` with the
database unchanged — no second order is created and exactly one row exists
for the key afterwards, but the original order is not returned and the
result is an error, not a success. -/
theorem C3_amended_duplicate_key (now u b : Nat) (amt : Int)
    (pm key : String) (oid : Nat) (onum : String) (db : DB)
    (hbook : bookActive db b = true)
    (hpur : pairConflict db u b = false)
    (hkey : (db.orders.filter
      (fun o => o.idempotency_key == some key)).length = 1) :
    create_order_with_idempotency now u b amt pm (some key) oid onum db =
      (.duplicateOrder, db) ∧
    ((create_order_with_idempotency now u b amt pm (some key) oid onum
        db).2.orders.filter
      (fun o => o.idempotency_key == some key)).length = 1 ∧
    CreateResult.duplicateOrder.success = false := by
  have hc : orderInsertConflict db oid onum (some key) = true := by
    unfold orderInsertConflict
    rw [List.any_eq_true]
    have hne : db.orders.filter (fun o => o.idempotency_key == some key) ≠
        [] := by
      intro hnil
      rw [hnil] at hkey
      simp at hkey
    obtain ⟨x, hx⟩ := List.exists_mem_of_ne_nil _ hne
    have hmemf := List.mem_filter.1 hx
    exact ⟨x, hmemf.1, by simp [hmemf.2]⟩
  have he : create_order_with_idempotency now u b amt pm (some key) oid
      onum db = (.duplicateOrder, db) := by
    simp [create_order_with_idempotency, hbook, hpur, hc]
  exact ⟨he, by rw [he]; exact hkey, rfl⟩

/-- C3 witness: the concrete replayed creation against `dbAfterFirst`
returns the `DUPLICATE_ORDER` failure and leaves exactly one row holding
key `abc`. -/
theorem C3_witness :
    create_order_with_idempotency 20 7 3 50000 "qris" (some "abc")
        12 "ORD-B" dbAfterFirst = (.duplicateOrder, dbAfterFirst) ∧
    ((create_order_with_idempotency 20 7 3 50000 "qris" (some "abc")
        12 "ORD-B" dbAfterFirst).2.orders.filter
      (fun o => o.idempotency_key == some "abc")).length = 1 := by
  have h := C3_amended_duplicate_key 20 7 3 50000 "qris" "abc" 12 "ORD-B"
    dbAfterFirst (by decide) (by decide) (by decide)
  exact ⟨h.1, h.2.1⟩

/-- C6: the expiry race resolves in favour of whichever transition runs
first.  For a pending order whose `expires_at` is already past: if the
settlement webhook is processed before the sweep, the order settles (the
completion function never looks at `expires_at`) and the subsequent sweep
leaves it `paid` because its guarded UPDATE only touches `pending` rows;
if the sweep runs first, the order becomes `expired` and a subsequent
settlement is rejected with `ORDER_NOT_PENDING`, creating no purchase
row. -/
theorem C6_expiry_race (nowW nowS : Nat) (onum tx payload : String)
    (db : DB) (o : Order)
    (hfind : lookupOrder db onum = some o)
    (hpend : o.status = "pending")
    (_hexpW : o.expires_at < nowW)
    (hexpS : o.expires_at < nowS)
    (href : purchaseRefs db o.id = false)
    (hconf : pairConflict db o.user_id o.book_id = false) :
    ((complete_payment_atomic nowW onum tx payload db).1 = .ok o.id ∧
     orderStatusByNumber
       (cleanup_expired_orders nowS
         (complete_payment_atomic nowW onum tx payload db).2).2 onum =
       some "paid") ∧
    (orderStatusByNumber (cleanup_expired_orders nowS db).2 onum =
       some "expired" ∧
     complete_payment_atomic nowW onum tx payload
         (cleanup_expired_orders nowS db).2 =
       (.orderNotPending "expired", (cleanup_expired_orders nowS db).2) ∧
     (complete_payment_atomic nowW onum tx payload
        (cleanup_expired_orders nowS db).2).2.user_purchases =
       db.user_purchases) := by
  have he := complete_eq_ok nowW onum tx payload db o hfind href hpend hconf
  have hexpired : lookupOrder (cleanup_expired_orders nowS db).2 onum =
      some { o with status := "expired", updated_at := nowS } := by
    rw [lookupOrder_after_sweep nowS onum db
      (cleanup_expired_orders nowS db).2 o rfl hfind,
      expireOne_of_stale nowS o hpend hexpS]
  have hnp := complete_eq_notPending nowW onum tx payload
    (cleanup_expired_orders nowS db).2
    { o with status := "expired", updated_at := nowS } hexpired href
    (by show ("expired" : String) ≠ "pending"; decide)
  refine ⟨⟨by rw [he], ?_⟩, ?_, hnp, by rw [hnp]; rfl⟩
  · have hBIG := lookupOrder_after_paid nowW o.id onum db
      (complete_payment_atomic nowW onum tx payload db).2 o (by rw [he])
      hfind
    have hswept := lookupOrder_after_sweep nowS onum
      (complete_payment_atomic nowW onum tx payload db).2
      (cleanup_expired_orders nowS
        (complete_payment_atomic nowW onum tx payload db).2).2
      (paidUpdate nowW o.id o) rfl hBIG
    unfold orderStatusByNumber
    rw [hswept,
      expireOne_of_not_pending nowS _ (by simp [paidUpdate_self]),
      paidUpdate_self]
    rfl
  · unfold orderStatusByNumber
    rw [hexpired]
    rfl

/-- C6 witness: the concrete order of `dbPending` (expired horizon 86400)
settles if the webhook arrives first and the later sweep leaves it paid;
if the sweep runs first the settlement is rejected with
`ORDER_NOT_PENDING` and inserts nothing. -/
theorem C6_witness :
    ((complete_payment_atomic 100000 "ORD-2" "tx9" "pl" dbPending).1 =
        .ok 2 ∧
     orderStatusByNumber (cleanup_expired_orders 100001
       (complete_payment_atomic 100000 "ORD-2" "tx9" "pl" dbPending).2).2
       "ORD-2" = some "paid") ∧
    (orderStatusByNumber (cleanup_expired_orders 100001 dbPending).2
       "ORD-2" = some "expired" ∧
     complete_payment_atomic 100000 "ORD-2" "tx9" "pl"
         (cleanup_expired_orders 100001 dbPending).2 =
       (.orderNotPending "expired",
        (cleanup_expired_orders 100001 dbPending).2)) := by
  have h := C6_expiry_race 100000 100001 "ORD-2" "tx9" "pl" dbPending
    orderPending (by decide) (by decide) (by decide) (by decide)
    (by decide) (by decide)
  exact ⟨⟨h.1.1, h.1.2⟩, h.2.1, h.2.2.1⟩

/-- C4: webhook ingestion is an idempotent gate.  If a ledger row with the
same `(transaction_id, event_type)` pair already exists in `webhook_events`,
the call returns success with `duplicate = true` and changes nothing at all;
if no such row exists, it inserts exactly the ledger row and returns success
with `duplicate = false`, mutating no order, purchase or payment-log state
(so in particular the ledger row lands before any order mutation could be
attempted by a caller). -/
theorem C4_webhook_dedup (tx oid ev payload : String) (db : DB) :
    (webhookSeen db tx ev = true →
      process_webhook_event tx oid ev payload db =
        ({ success := true, duplicate := true }, db)) ∧
    (webhookSeen db tx ev = false →
      (process_webhook_event tx oid ev payload db).1 =
        { success := true, duplicate := false } ∧
      (process_webhook_event tx oid ev payload db).2.webhook_events =
        db.webhook_events ++ [⟨tx, oid, ev, payload⟩] ∧
      (process_webhook_event tx oid ev payload db).2.orders = db.orders ∧
      (process_webhook_event tx oid ev payload db).2.user_purchases =
        db.user_purchases ∧
      (process_webhook_event tx oid ev payload db).2.payment_logs =
        db.payment_logs) := by
  constructor
  · intro h; simp [process_webhook_event, h]
  · intro h; refine ⟨?_, ?_, ?_, ?_, ?_⟩ <;> simp [process_webhook_event, h]

/-- C4 witness: a concrete fresh event is inserted with `duplicate = false`,
and redelivering the identical event hits the ledger and is a pure no-op
with `duplicate = true`. -/
theorem C4_witness :
    ((process_webhook_event "tx9" "ORD-2" "settlement" "pl" dbPending).1 =
      { success := true, duplicate := false } ∧
     (process_webhook_event "tx9" "ORD-2" "settlement" "pl" dbPending).2.webhook_events =
      dbPending.webhook_events ++ [⟨"tx9", "ORD-2", "settlement", "pl"⟩]) ∧
    process_webhook_event "tx9" "ORD-2" "settlement" "pl"
        (process_webhook_event "tx9" "ORD-2" "settlement" "pl" dbPending).2 =
      ({ success := true, duplicate := true },
       (process_webhook_event "tx9" "ORD-2" "settlement" "pl" dbPending).2) := by
  have h1 := (C4_webhook_dedup "tx9" "ORD-2" "settlement" "pl" dbPending).2
    (by decide)
  have h2 := (C4_webhook_dedup "tx9" "ORD-2" "settlement" "pl"
    (process_webhook_event "tx9" "ORD-2" "settlement" "pl" dbPending).2).1
    (by decide)
  exact ⟨⟨h1.1, h1.2.1⟩, h2⟩

/-- C7: the expiry sweep transitions to `expired` exactly the orders that
are `pending` with `expires_at` strictly before now (row `i` of the table
is replaced by `expireOne now` of itself, which expires exactly such rows
and is the identity on every other row), touches no other table of the
engine, and returns the count of the orders it expired. -/
theorem C7_sweep (now : Nat) (db : DB) :
    (cleanup_expired_orders now db).1 =
      db.orders.countP (fun o => decide (o.status = "pending" ∧ o.expires_at < now)) ∧
    (∀ i : Nat, (cleanup_expired_orders now db).2.orders[i]? =
      (db.orders[i]?).map (expireOne now)) ∧
    (∀ o : Order, o.status = "pending" → o.expires_at < now →
      expireOne now o = { o with status := "expired", updated_at := now }) ∧
    (∀ o : Order, ¬ (o.status = "pending" ∧ o.expires_at < now) →
      expireOne now o = o) ∧
    (cleanup_expired_orders now db).2.user_purchases = db.user_purchases ∧
    (cleanup_expired_orders now db).2.payment_logs = db.payment_logs ∧
    (cleanup_expired_orders now db).2.webhook_events = db.webhook_events := by
  refine ⟨?_, ?_, ?_, ?_, rfl, rfl, rfl⟩
  · have hp : (fun o : Order => o.status == "pending" && decide (o.expires_at < now)) =
        (fun o : Order => decide (o.status = "pending" ∧ o.expires_at < now)) := by
      funext o
      by_cases h1 : o.status = "pending" <;> by_cases h2 : o.expires_at < now <;>
        simp [h1, h2]
    rw [List.countP_eq_length_filter, ← hp]
    rfl
  · intro i
    simp [cleanup_expired_orders, List.getElem?_map]
  · intro o h1 h2
    simp [expireOne, h1, h2]
  · intro o h
    simp [expireOne, h]

/-- C7 witness: sweeping at t = 100000 a database whose single order is
`pending` with `expires_at = 86400` expires that one order and reports the
count 1. -/
theorem C7_witness :
    (cleanup_expired_orders 100000 dbPending).1 = 1 ∧
    (cleanup_expired_orders 100000 dbPending).2.orders[0]? =
      some { orderPending with status := "expired", updated_at := 100000 } ∧
    (cleanup_expired_orders 100000 dbPending).2.user_purchases =
      dbPending.user_purchases := by
  have h := C7_sweep 100000 dbPending
  refine ⟨by rw [h.1]; decide, ?_, h.2.2.2.2.1⟩
  rw [h.2.1 0]
  have he := h.2.2.1 orderPending (by decide) (by decide)
  simp [dbPending, he]

/-- C10: every `payment_logs` row inserted by a payment-completion call has
`transaction_status` equal to the fixed literal `"settlement"`, whatever
transaction id and gateway payload were passed in; the payload itself is
stored in the `webhook_data` column and the transaction id in
`transaction_id`. -/
theorem C10_settlement_literal (now : Nat) (onum tx payload : String)
    (db : DB) (lg : PaymentLog)
    (hmem : lg ∈ (complete_payment_atomic now onum tx payload db).2.payment_logs)
    (hnew : lg ∉ db.payment_logs) :
    lg.transaction_status = "settlement" ∧ lg.webhook_data = payload ∧
    lg.transaction_id = tx := by
  unfold complete_payment_atomic at hmem
  rcases hf : lookupOrder db onum with _ | o
  · rw [hf] at hmem; exact absurd hmem hnew
  · rw [hf] at hmem
    simp only at hmem
    split_ifs at hmem
    · exact absurd hmem hnew
    · exact absurd hmem hnew
    · exact absurd hmem hnew
    · simp only [List.mem_append] at hmem
      rcases hmem with hmem | hmem
      · exact absurd hmem hnew
      · simp only [List.mem_singleton] at hmem
        subst hmem
        exact ⟨rfl, rfl, rfl⟩

/-- C10 witness: the log row produced by settling the concrete pending
order carries the literal status `"settlement"` and the passed payload. -/
theorem C10_witness :
    (⟨2, "tx9", "settlement", "pl"⟩ : PaymentLog).transaction_status =
      "settlement" ∧
    (⟨2, "tx9", "settlement", "pl"⟩ : PaymentLog).webhook_data = "pl" ∧
    (⟨2, "tx9", "settlement", "pl"⟩ : PaymentLog).transaction_id = "tx9" :=
  C10_settlement_literal 200 "ORD-2" "tx9" "pl" dbPending
    ⟨2, "tx9", "settlement", "pl"⟩ (by decide) (by decide)

/-- C8 counterexample: run the monitor against `envClosed` (the order stays
`pending`, the user closes the payment window at t = 1500 ms).  Closure is
detected at the t = 2000 ms window tick, the single grace-delay status
check runs at t = 4000 ms — and then the periodic 5-second polling keeps
running: further status checks happen at t = 5000 and t = 10000 ms and the
polling interval is still active, contradicting the claim that the monitor
"then stops the periodic status polling". -/
theorem C8_counterexample :
    (mrun envClosed (startPaymentMonitoring monitor0) 5).events =
      [(2000, "payment_window_closed")] ∧
    (mrun envClosed (startPaymentMonitoring monitor0) 5).checks =
      [4000, 5000, 10000] ∧
    (mrun envClosed (startPaymentMonitoring monitor0) 5).statusPollActive =
      true := by
  decide

/-- C8 (amended): when a window-closure tick finds the payment window
closed, the monitor stops the window watcher, fires the
`payment_window_closed` callbacks, and schedules exactly one additional
status check for 2000 ms later, performing no immediate check; that grace
check (like any `checkPaymentStatus` with a current order) queries the
status endpoint exactly once.  The closure itself leaves the periodic
status polling flag untouched — polling stops only when a check observes a
final status or the 30-minute timeout fires. -/
theorem C8_amended_grace_check :
    (∀ (env : MonitorEnv) (m : Monitor) (t : Nat) (rest : List MTask),
      pickMin m.tasks = some (⟨t, .windowCheck⟩, rest) →
      m.windowCheckActive = true → env.windowClosed t = true →
      (mstep env m).windowCheckActive = false ∧
      (mstep env m).tasks = rest ++ [⟨t + 2000, .graceCheck⟩] ∧
      (mstep env m).statusPollActive = m.statusPollActive ∧
      (mstep env m).checks = m.checks ∧
      (mstep env m).events = m.events ++ [(t, "payment_window_closed")]) ∧
    (∀ (env : MonitorEnv) (m : Monitor) (t : Nat) (rest : List MTask),
      pickMin m.tasks = some (⟨t, .graceCheck⟩, rest) → m.hasOrder = true →
      (mstep env m).checks = m.checks ++ [t]) := by
  constructor
  · intro env m t rest hpick hact hclosed
    unfold mstep
    rw [hpick]
    simp [hact, hclosed]
  · intro env m t rest hpick horder
    unfold mstep
    rw [hpick]
    simp [checkPaymentStatus, horder]
    split_ifs <;> simp [handlePaymentSuccess, handlePaymentFailure,
      stopStatusPolling]

/-- C8 witness: the closure tick of the concrete monitor `mWin` under
`envClosed` stops the window watcher, queues the single grace check at
t = 4000 ms and leaves polling active; the grace check of `mGrace` then
performs exactly one status query. -/
theorem C8_witness :
    ((mstep envClosed mWin).windowCheckActive = false ∧
     (mstep envClosed mWin).tasks =
       [⟨5000, .statusPoll 1⟩, ⟨1800000, .stopPollingTimeout⟩,
        ⟨4000, .graceCheck⟩] ∧
     (mstep envClosed mWin).statusPollActive = true ∧
     (mstep envClosed mWin).checks = []) ∧
    (mstep envClosed mGrace).checks = [4000] := by
  have h1 := C8_amended_grace_check.1 envClosed mWin 2000
    [⟨5000, .statusPoll 1⟩, ⟨1800000, .stopPollingTimeout⟩]
    (by decide) (by decide) (by decide)
  have h2 := C8_amended_grace_check.2 envClosed mGrace 4000
    [⟨5000, .statusPoll 1⟩, ⟨1800000, .stopPollingTimeout⟩]
    (by decide) (by decide)
  exact ⟨⟨h1.1, by rw [h1.2.1]; decide, by rw [h1.2.2.1]; decide,
    by rw [h1.2.2.2.1]; decide⟩, by rw [h2]; decide⟩

/-- C9: the polling discipline of the monitor.  (i) A live 5-second tick
whose status query observes no change performs exactly one status check and
re-queues itself exactly 5000 ms later with polling still active — the
fixed 5-second interval.  (ii) `startStatusPolling` schedules, besides the
first tick at now + 5000 ms, the absolute stop timer at
now + 30 · 60 · 1000 ms.  (iii) When the stop timer fires it clears the
polling interval regardless of the order's state, firing no callback and
leaving the cached order and its (possibly still pending) status untouched
— a still-pending outcome, not a failure. -/
theorem C9_polling_bounds :
    (∀ (env : MonitorEnv) (m : Monitor) (t g : Nat) (rest : List MTask),
      pickMin m.tasks = some (⟨t, .statusPoll g⟩, rest) →
      m.statusPollActive = true → g = m.statusGen → m.hasOrder = true →
      env.serverStatus t = m.orderStatus →
      (mstep env m).checks = m.checks ++ [t] ∧
      (mstep env m).tasks = rest ++ [⟨t + 5000, .statusPoll g⟩] ∧
      (mstep env m).statusPollActive = true) ∧
    (∀ m : Monitor, (startStatusPolling m).tasks =
      m.tasks ++ [⟨m.now + 5000, .statusPoll (m.statusGen + 1)⟩,
        ⟨m.now + 30 * 60 * 1000, .stopPollingTimeout⟩]) ∧
    (∀ (env : MonitorEnv) (m : Monitor) (t : Nat) (rest : List MTask),
      pickMin m.tasks = some (⟨t, .stopPollingTimeout⟩, rest) →
      (mstep env m).statusPollActive = false ∧
      (mstep env m).events = m.events ∧
      (mstep env m).orderStatus = m.orderStatus ∧
      (mstep env m).hasOrder = m.hasOrder ∧
      (mstep env m).checks = m.checks ∧
      (mstep env m).tasks = rest) := by
  refine ⟨?_, fun m => rfl, ?_⟩
  · intro env m t g rest hpick hact hgen horder hsame
    subst hgen
    unfold mstep
    rw [hpick]
    simp [checkPaymentStatus, hact, horder, hsame]
  · intro env m t rest hpick
    unfold mstep
    rw [hpick]
    exact ⟨rfl, rfl, rfl, rfl, rfl, rfl⟩

/-- C9 witness: under `envPending` the concrete mid-session monitor `mPoll`
checks at t = 5000 ms and re-queues its tick for t = 10000 ms with polling
still active; `startStatusPolling` on the fresh monitor queues the first
tick at 5000 ms and the stop timer at 1800000 ms; and firing the stop timer
of `mStop` clears polling while the cached status stays `pending` with no
callback fired. -/
theorem C9_witness :
    ((mstep envPending mPoll).checks = [5000] ∧
     (mstep envPending mPoll).tasks =
       [⟨1800000, .stopPollingTimeout⟩, ⟨10000, .statusPoll 1⟩] ∧
     (mstep envPending mPoll).statusPollActive = true) ∧
    (startStatusPolling monitor0).tasks =
      [⟨5000, .statusPoll 1⟩, ⟨1800000, .stopPollingTimeout⟩] ∧
    ((mstep envPending mStop).statusPollActive = false ∧
     (mstep envPending mStop).events = [] ∧
     (mstep envPending mStop).orderStatus = "pending" ∧
     (mstep envPending mStop).hasOrder = true) := by
  have h1 := C9_polling_bounds.1 envPending mPoll 5000 1
    [⟨1800000, .stopPollingTimeout⟩] (by decide) rfl rfl rfl rfl
  have h2 := C9_polling_bounds.2.1 monitor0
  have h3 := C9_polling_bounds.2.2 envPending mStop 1800000 [] (by decide)
  exact ⟨⟨by rw [h1.1]; decide, by rw [h1.2.1]; decide, h1.2.2⟩,
    by rw [h2]; decide,
    h3.1, by rw [h3.2.1]; decide, by rw [h3.2.2.1]; decide,
    by rw [h3.2.2.2.1]; decide⟩

end BookStore
